import Mathlib

/-!
Verification of the packet-buffer ("mbuf") layer of rust-dpdk-net.

The repository source (`src/dpdk-net-sys/src/wrapper.c`) implements
`rust_pktmbuf_set_data_len` and `rust_pktmbuf_set_pkt_len` directly as
field stores, and delegates the remaining buffer operations
(`rte_pktmbuf_alloc`, `rte_pktmbuf_headroom`, `rte_pktmbuf_tailroom`,
`rte_pktmbuf_append`, `rte_pktmbuf_prepend`, `rte_pktmbuf_adj`,
`rte_pktmbuf_trim`, `rte_pktmbuf_reset`, `rte_eth_rx_burst`,
`rte_eth_tx_burst`) to the external DPDK library, whose bodies are not
part of this repository.  Those delegated operations are modelled from
the specification's descriptions; the two setters are embedded from the
C source itself.  Machine integers are modelled as `Nat`, with an
explicit `% 2 ^ 16` (resp. `% 2 ^ 32`) where the C code stores through a
`uint16_t` (resp. `uint32_t`) field.
-/

/-- A packet-buffer segment: the metadata fields of `struct rte_mbuf`
that the wrapped operations read and write.  `buf_len` is the fixed
capacity of the data room, `data_off` the offset of the first valid
byte (the headroom), `data_len` the number of valid bytes in this
segment, and `pkt_len` the total length of the segment chain. -/
structure Mbuf where
  buf_len : Nat
  data_off : Nat
  data_len : Nat
  pkt_len : Nat
  deriving Repr, DecidableEq

/-- A memory pool: per-buffer data-room capacity, the configured default
headroom, and the number of currently free buffers. -/
structure Mempool where
  data_room : Nat
  default_headroom : Nat
  free_count : Nat
  deriving Repr, DecidableEq

/-- The error taxonomy of the spec's error-handling design. -/
inductive BufError where
  | PoolExhausted
  | InsufficientTailroom
  | InsufficientHeadroom
  | InvalidLength
  deriving Repr, DecidableEq

/-- Embedded from `wrapper.c`: `void rust_pktmbuf_set_data_len(struct
rte_mbuf *m, uint16_t len) { m->data_len = len; }` — an unconditional
store of the `uint16_t` argument into the `data_len` field. -/
def rust_pktmbuf_set_data_len (m : Mbuf) (len : Nat) : Mbuf :=
  { m with data_len := len % 2 ^ 16 }

/-- Embedded from `wrapper.c`: `void rust_pktmbuf_set_pkt_len(struct
rte_mbuf *m, uint32_t len) { m->pkt_len = len; }` — an unconditional
store of the `uint32_t` argument into the `pkt_len` field. -/
def rust_pktmbuf_set_pkt_len (m : Mbuf) (len : Nat) : Mbuf :=
  { m with pkt_len := len % 2 ^ 32 }

/-- Modelled from the spec: `headroom(buffer)` is the unused space
before valid data, i.e. the data offset (the body of
`rte_pktmbuf_headroom` is external to the repository). -/
def rust_pktmbuf_headroom (m : Mbuf) : Nat :=
  m.data_off

/-- Modelled from the spec: `tailroom(buffer)` is the unused space after
valid data, i.e. capacity minus headroom minus `data_len` (the body of
`rte_pktmbuf_tailroom` is external to the repository).  `Nat`
subtraction truncates at zero when the metadata are inconsistent. -/
def rust_pktmbuf_tailroom (m : Mbuf) : Nat :=
  m.buf_len - m.data_off - m.data_len

/-- Modelled from the spec: `data_room_size(pool)` exposes the fixed
per-buffer capacity (the body of `rte_pktmbuf_data_room_size` is
external to the repository). -/
def rust_pktmbuf_data_room_size (p : Mempool) : Nat :=
  p.data_room

/-- Modelled from the spec: `alloc(pool)` fails with `PoolExhausted`
when no buffer is available; on success the fresh buffer has
`data_len = 0`, `pkt_len = 0`, headroom equal to the pool default, hence
`tailroom = capacity - headroom` (the body of `rte_pktmbuf_alloc` is
external to the repository). -/
def rust_pktmbuf_alloc (p : Mempool) : Except BufError Mbuf :=
  if p.free_count = 0 then
    .error .PoolExhausted
  else
    .ok { buf_len := p.data_room, data_off := p.default_headroom,
          data_len := 0, pkt_len := 0 }

/-- Modelled from the spec: `append(buffer, len)` fails with
`InsufficientTailroom` when `len > tailroom`, leaving the buffer
unmodified; otherwise it grows `data_len` by `len`, updates `pkt_len`,
and returns the offset of the newly appended region (the body of
`rte_pktmbuf_append` is external to the repository).  The returned
offset stands for the returned pointer, measured from the buffer
base. -/
def rust_pktmbuf_append (m : Mbuf) (len : Nat) :
    Mbuf × Except BufError Nat :=
  if rust_pktmbuf_tailroom m < len then
    (m, .error .InsufficientTailroom)
  else
    ({ m with data_len := m.data_len + len, pkt_len := m.pkt_len + len },
     .ok (m.data_off + m.data_len))

/-- Modelled from the spec: `prepend(buffer, len)` fails with
`InsufficientHeadroom` when `len > headroom`; otherwise the data start
moves backward by `len`, `data_len` grows by `len`, `pkt_len` is
updated, and the offset of the new data start is returned (the body of
`rte_pktmbuf_prepend` is external to the repository). -/
def rust_pktmbuf_prepend (m : Mbuf) (len : Nat) :
    Mbuf × Except BufError Nat :=
  if rust_pktmbuf_headroom m < len then
    (m, .error .InsufficientHeadroom)
  else
    ({ m with
        data_off := m.data_off - len
        data_len := m.data_len + len
        pkt_len := m.pkt_len + len },
     .ok (m.data_off - len))

/-- Modelled from the spec: `adjust(buffer, len)` fails with
`InvalidLength` when `len > data_len`; otherwise it removes `len` bytes
from the front: the data start moves forward, `data_len` shrinks, and
the offset of the new data start is returned (the body of
`rte_pktmbuf_adj` is external to the repository). -/
def rust_pktmbuf_adj (m : Mbuf) (len : Nat) :
    Mbuf × Except BufError Nat :=
  if m.data_len < len then
    (m, .error .InvalidLength)
  else
    ({ m with
        data_off := m.data_off + len
        data_len := m.data_len - len
        pkt_len := m.pkt_len - len },
     .ok (m.data_off + len))

/-- Modelled from the spec: `trim(buffer, len)` fails with
`InvalidLength` when `len > data_len`; otherwise it removes `len` bytes
from the tail: `data_len` shrinks by `len` and the tailroom grows (the
body of `rte_pktmbuf_trim` is external to the repository). -/
def rust_pktmbuf_trim (m : Mbuf) (len : Nat) :
    Mbuf × Except BufError Unit :=
  if m.data_len < len then
    (m, .error .InvalidLength)
  else
    ({ m with data_len := m.data_len - len, pkt_len := m.pkt_len - len },
     .ok ())

/-- Modelled from the spec: `reset(buffer)` restores the buffer to empty
(`data_len = pkt_len = 0`) with headroom back to the pool's configured
default `h` (the body of `rte_pktmbuf_reset` is external to the
repository). -/
def rust_pktmbuf_reset (h : Nat) (m : Mbuf) : Mbuf :=
  { m with data_off := h, data_len := 0, pkt_len := 0 }

/-- Modelled from the spec: `rx_burst(port, queue, max)` performs one
non-blocking poll of the receive queue and returns at most `max`
buffers; the rest stay queued (the body of `rte_eth_rx_burst` is
external to the repository).  The queue is modelled as the list of
frames ready to be received. -/
def rust_eth_rx_burst (queue : List Mbuf) (nb_pkts : Nat) :
    List Mbuf × List Mbuf :=
  (queue.take nb_pkts, queue.drop nb_pkts)

/-- Modelled from the spec: `tx_burst(port, queue, bufs)` attempts to
enqueue all given buffers and returns the number actually accepted,
bounded by the free ring slots; buffers past the accepted count remain
with the caller (the body of `rte_eth_tx_burst` is external to the
repository).  Returns the accepted count together with the list of
buffers the caller still owns. -/
def rust_eth_tx_burst (ring_space : Nat) (bufs : List Mbuf) :
    Nat × List Mbuf :=
  (min ring_space bufs.length, bufs.drop (min ring_space bufs.length))

/-- Well-formedness of a segment's metadata: the valid data region fits
inside the data room.  This is the state the allocator establishes and
every checked editor operation preserves. -/
def Mbuf.WF (m : Mbuf) : Prop :=
  m.data_off + m.data_len ≤ m.buf_len

instance (m : Mbuf) : Decidable m.WF := by
  unfold Mbuf.WF; infer_instance

/-- Sum of `data_len` over a segment chain, modelled as a list of
segments. -/
def chainDataSum (c : List Mbuf) : Nat :=
  (c.map Mbuf.data_len).sum

/-! ## Helper lemmas: the two branches of each checked editor operation -/

theorem append_of_le (m : Mbuf) (len : Nat)
    (h : len ≤ rust_pktmbuf_tailroom m) :
    rust_pktmbuf_append m len =
      ({ m with data_len := m.data_len + len, pkt_len := m.pkt_len + len },
       .ok (m.data_off + m.data_len)) := by
  unfold rust_pktmbuf_append
  rw [if_neg (by omega)]

theorem append_of_gt (m : Mbuf) (len : Nat)
    (h : rust_pktmbuf_tailroom m < len) :
    rust_pktmbuf_append m len = (m, .error .InsufficientTailroom) := by
  unfold rust_pktmbuf_append
  rw [if_pos h]

theorem prepend_of_le (m : Mbuf) (len : Nat)
    (h : len ≤ rust_pktmbuf_headroom m) :
    rust_pktmbuf_prepend m len =
      ({ m with
          data_off := m.data_off - len
          data_len := m.data_len + len
          pkt_len := m.pkt_len + len },
       .ok (m.data_off - len)) := by
  unfold rust_pktmbuf_prepend
  rw [if_neg (by omega)]

theorem prepend_of_gt (m : Mbuf) (len : Nat)
    (h : rust_pktmbuf_headroom m < len) :
    rust_pktmbuf_prepend m len = (m, .error .InsufficientHeadroom) := by
  unfold rust_pktmbuf_prepend
  rw [if_pos h]

theorem adj_of_le (m : Mbuf) (len : Nat) (h : len ≤ m.data_len) :
    rust_pktmbuf_adj m len =
      ({ m with
          data_off := m.data_off + len
          data_len := m.data_len - len
          pkt_len := m.pkt_len - len },
       .ok (m.data_off + len)) := by
  unfold rust_pktmbuf_adj
  rw [if_neg (by omega)]

theorem adj_of_gt (m : Mbuf) (len : Nat) (h : m.data_len < len) :
    rust_pktmbuf_adj m len = (m, .error .InvalidLength) := by
  unfold rust_pktmbuf_adj
  rw [if_pos h]

theorem trim_of_le (m : Mbuf) (len : Nat) (h : len ≤ m.data_len) :
    rust_pktmbuf_trim m len =
      ({ m with data_len := m.data_len - len, pkt_len := m.pkt_len - len },
       .ok ()) := by
  unfold rust_pktmbuf_trim
  rw [if_neg (by omega)]

theorem trim_of_gt (m : Mbuf) (len : Nat) (h : m.data_len < len) :
    rust_pktmbuf_trim m len = (m, .error .InvalidLength) := by
  unfold rust_pktmbuf_trim
  rw [if_pos h]

/-! ## Claim theorems -/

/-- C2: for every well-formed buffer `b` and every `len ≤ tailroom(b)`,
`append(b, len)` succeeds; afterwards `data_len` has grown by exactly
`len`, `tailroom` has shrunk by exactly `len`, `headroom` is unchanged,
`pkt_len` has grown by `len`, and the returned region of `len` bytes
lies inside the data room. -/
theorem c2_append_success (m : Mbuf) (len : Nat) (hwf : m.WF)
    (hlen : len ≤ rust_pktmbuf_tailroom m) :
    ((rust_pktmbuf_append m len).1).data_len = m.data_len + len ∧
    rust_pktmbuf_tailroom (rust_pktmbuf_append m len).1 + len
      = rust_pktmbuf_tailroom m ∧
    rust_pktmbuf_headroom (rust_pktmbuf_append m len).1
      = rust_pktmbuf_headroom m ∧
    ((rust_pktmbuf_append m len).1).pkt_len = m.pkt_len + len ∧
    ∃ ptr, (rust_pktmbuf_append m len).2 = .ok ptr ∧
      m.data_off ≤ ptr ∧ ptr + len ≤ m.buf_len := by
  rw [append_of_le m len hlen]
  unfold Mbuf.WF at hwf
  unfold rust_pktmbuf_tailroom rust_pktmbuf_headroom at *
  refine ⟨rfl, by simp; omega, rfl, rfl, m.data_off + m.data_len, rfl, ?_, ?_⟩
  · omega
  · omega

/-- C2 witness: a concrete well-formed buffer with 100 ≤ tailroom. -/
theorem c2_append_success_witness :
    Mbuf.WF ⟨2048, 128, 400, 400⟩ ∧
    100 ≤ rust_pktmbuf_tailroom ⟨2048, 128, 400, 400⟩ ∧
    ((rust_pktmbuf_append ⟨2048, 128, 400, 400⟩ 100).1).data_len
      = 400 + 100 := by
  refine ⟨by decide, by decide, ?_⟩
  exact (c2_append_success ⟨2048, 128, 400, 400⟩ 100 (by decide)
    (by decide)).1

/-- C3: `append(b, len)` fails, with `InsufficientTailroom`, exactly
when `len > tailroom(b)`, and on failure the buffer is returned with
every metadata field unchanged (no payload byte is ever written by a
failed append, since no buffer is produced to write into). -/
theorem c3_append_failure (m : Mbuf) (len : Nat) :
    ((rust_pktmbuf_append m len).2 = .error .InsufficientTailroom ↔
      rust_pktmbuf_tailroom m < len) ∧
    (rust_pktmbuf_tailroom m < len → (rust_pktmbuf_append m len).1 = m) := by
  constructor
  · constructor
    · intro herr
      by_contra hle
      rw [append_of_le m len (by omega)] at herr
      exact absurd herr (by simp)
    · intro hgt
      rw [append_of_gt m len hgt]
  · intro hgt
    rw [append_of_gt m len hgt]

/-- C3 witness: a concrete buffer with tailroom 20 rejecting a
100-byte append unchanged. -/
theorem c3_append_failure_witness :
    rust_pktmbuf_tailroom ⟨2048, 128, 1900, 1900⟩ < 100 ∧
    (rust_pktmbuf_append ⟨2048, 128, 1900, 1900⟩ 100).1
      = ⟨2048, 128, 1900, 1900⟩ ∧
    (rust_pktmbuf_append ⟨2048, 128, 1900, 1900⟩ 100).2
      = .error .InsufficientTailroom := by
  refine ⟨by decide, (c3_append_failure ⟨2048, 128, 1900, 1900⟩ 100).2
    (by decide), ?_⟩
  exact ((c3_append_failure ⟨2048, 128, 1900, 1900⟩ 100).1).2 (by decide)

/-- C4: `alloc(pool)` fails with `PoolExhausted` exactly when the pool
has no free buffer; a successfully allocated buffer has `data_len = 0`,
`pkt_len = 0`, headroom equal to the pool's default `H`, and tailroom
equal to `C - H` for pool capacity `C`. -/
theorem c4_alloc (p : Mempool) (b : Mbuf) :
    (rust_pktmbuf_alloc p = .error .PoolExhausted ↔ p.free_count = 0) ∧
    (rust_pktmbuf_alloc p = .ok b →
      b.data_len = 0 ∧ b.pkt_len = 0 ∧
      rust_pktmbuf_headroom b = p.default_headroom ∧
      rust_pktmbuf_tailroom b
        = rust_pktmbuf_data_room_size p - p.default_headroom) := by
  unfold rust_pktmbuf_alloc
  by_cases h : p.free_count = 0
  · rw [if_pos h]
    exact ⟨by simp [h], by simp⟩
  · rw [if_neg h]
    refine ⟨by simp [h], ?_⟩
    intro hok
    cases hok
    exact ⟨rfl, rfl, rfl, rfl⟩

/-- C4 witness: a pool with 8 free buffers of capacity 2048 and default
headroom 128 yields a fresh buffer with tailroom 1920. -/
theorem c4_alloc_witness :
    rust_pktmbuf_alloc ⟨2048, 128, 8⟩ = .ok ⟨2048, 128, 0, 0⟩ ∧
    rust_pktmbuf_tailroom (⟨2048, 128, 0, 0⟩ : Mbuf) = 1920 ∧
    ¬ rust_pktmbuf_alloc ⟨2048, 128, 0⟩ = .ok ⟨2048, 128, 0, 0⟩ := by
  refine ⟨rfl, ?_, ?_⟩
  · have h := (c4_alloc ⟨2048, 128, 8⟩ ⟨2048, 128, 0, 0⟩).2 rfl
    simpa using h.2.2.2
  · have h := (c4_alloc ⟨2048, 128, 0⟩ ⟨2048, 128, 0, 0⟩).1.2 rfl
    simp [h]

/-- C5: `prepend(b, len)` fails, with `InsufficientHeadroom`, exactly
when `len > headroom(b)`; on success `data_len` grows by `len`,
`headroom` shrinks by exactly `len` (the data start moves backward),
and the returned pointer is the new start of the data region. -/
theorem c5_prepend (m : Mbuf) (len : Nat) :
    ((rust_pktmbuf_prepend m len).2 = .error .InsufficientHeadroom ↔
      rust_pktmbuf_headroom m < len) ∧
    (rust_pktmbuf_headroom m < len → (rust_pktmbuf_prepend m len).1 = m) ∧
    (len ≤ rust_pktmbuf_headroom m →
      ((rust_pktmbuf_prepend m len).1).data_len = m.data_len + len ∧
      rust_pktmbuf_headroom (rust_pktmbuf_prepend m len).1 + len
        = rust_pktmbuf_headroom m ∧
      (rust_pktmbuf_prepend m len).2
        = .ok (((rust_pktmbuf_prepend m len).1).data_off)) := by
  refine ⟨⟨?_, ?_⟩, ?_, ?_⟩
  · intro herr
    by_contra hle
    rw [prepend_of_le m len (by omega)] at herr
    exact absurd herr (by simp)
  · intro hgt
    rw [prepend_of_gt m len hgt]
  · intro hgt
    rw [prepend_of_gt m len hgt]
  · intro hle
    rw [prepend_of_le m len hle]
    unfold rust_pktmbuf_headroom at *
    exact ⟨rfl, by simp; omega, rfl⟩

/-- C5 witness: a buffer with headroom 128 accepting a 64-byte prepend
and rejecting a 200-byte one. -/
theorem c5_prepend_witness :
    (64 ≤ rust_pktmbuf_headroom ⟨2048, 128, 400, 400⟩ ∧
     ((rust_pktmbuf_prepend ⟨2048, 128, 400, 400⟩ 64).1).data_len
       = 400 + 64) ∧
    (rust_pktmbuf_headroom ⟨2048, 128, 400, 400⟩ < 200 ∧
     (rust_pktmbuf_prepend ⟨2048, 128, 400, 400⟩ 200).2
       = .error .InsufficientHeadroom) := by
  refine ⟨⟨by decide, ?_⟩, by decide, ?_⟩
  · exact ((c5_prepend ⟨2048, 128, 400, 400⟩ 64).2.2 (by decide)).1
  · exact ((c5_prepend ⟨2048, 128, 400, 400⟩ 200).1).2 (by decide)

/-- C6: `adjust(b, len)` and `trim(b, len)` each fail, with
`InvalidLength`, exactly when `len > data_len(b)`, leaving the buffer
unchanged; on success each shrinks `data_len` by exactly `len`, with
`adjust` growing the headroom by `len` and `trim` growing the tailroom
by `len` (the latter for well-formed metadata). -/
theorem c6_adjust_trim (m : Mbuf) (len : Nat) :
    ((rust_pktmbuf_adj m len).2 = .error .InvalidLength ↔
      m.data_len < len) ∧
    ((rust_pktmbuf_trim m len).2 = .error .InvalidLength ↔
      m.data_len < len) ∧
    (m.data_len < len →
      (rust_pktmbuf_adj m len).1 = m ∧ (rust_pktmbuf_trim m len).1 = m) ∧
    (len ≤ m.data_len →
      ((rust_pktmbuf_adj m len).1).data_len + len = m.data_len ∧
      ((rust_pktmbuf_trim m len).1).data_len + len = m.data_len ∧
      rust_pktmbuf_headroom (rust_pktmbuf_adj m len).1
        = rust_pktmbuf_headroom m + len ∧
      (m.WF → rust_pktmbuf_tailroom (rust_pktmbuf_trim m len).1
        = rust_pktmbuf_tailroom m + len)) := by
  refine ⟨⟨?_, ?_⟩, ⟨?_, ?_⟩, ?_, ?_⟩
  · intro herr
    by_contra hle
    rw [adj_of_le m len (by omega)] at herr
    exact absurd herr (by simp)
  · intro hgt
    rw [adj_of_gt m len hgt]
  · intro herr
    by_contra hle
    rw [trim_of_le m len (by omega)] at herr
    exact absurd herr (by simp)
  · intro hgt
    rw [trim_of_gt m len hgt]
  · intro hgt
    rw [adj_of_gt m len hgt, trim_of_gt m len hgt]
    exact ⟨rfl, rfl⟩
  · intro hle
    rw [adj_of_le m len hle, trim_of_le m len hle]
    unfold Mbuf.WF rust_pktmbuf_headroom rust_pktmbuf_tailroom
    refine ⟨by simp; omega, by simp; omega, rfl, ?_⟩
    intro hwf
    simp
    omega

/-- C6 witness: a buffer with `data_len = 400` shrunk by 100 from front
and tail, and left unchanged by an attempted 500-byte removal. -/
theorem c6_adjust_trim_witness :
    (100 ≤ (⟨2048, 128, 400, 400⟩ : Mbuf).data_len ∧
     Mbuf.WF ⟨2048, 128, 400, 400⟩ ∧
     rust_pktmbuf_tailroom
       (rust_pktmbuf_trim ⟨2048, 128, 400, 400⟩ 100).1
       = rust_pktmbuf_tailroom ⟨2048, 128, 400, 400⟩ + 100) ∧
    ((⟨2048, 128, 400, 400⟩ : Mbuf).data_len < 500 ∧
     (rust_pktmbuf_adj ⟨2048, 128, 400, 400⟩ 500).1
       = ⟨2048, 128, 400, 400⟩) := by
  refine ⟨⟨by decide, by decide, ?_⟩, by decide, ?_⟩
  · exact ((c6_adjust_trim ⟨2048, 128, 400, 400⟩ 100).2.2.2
      (by decide)).2.2.2 (by decide)
  · exact ((c6_adjust_trim ⟨2048, 128, 400, 400⟩ 500).2.2.1
      (by decide)).1

/-- C7: `set_data_len(b, len)` and `set_pkt_len(b, len)` unconditionally
store the given value into the respective field, for every value of the
C argument type — with no bounds check against capacity, headroom, or
any other field, and no failure path (both functions are total). -/
theorem c7_setters_unchecked (m : Mbuf) (len₁ len₂ : Nat) :
    (len₁ < 2 ^ 16 →
      (rust_pktmbuf_set_data_len m len₁).data_len = len₁) ∧
    (len₂ < 2 ^ 32 →
      (rust_pktmbuf_set_pkt_len m len₂).pkt_len = len₂) := by
  constructor
  · intro h
    have h' : len₁ < 65536 := by simpa using h
    simp [rust_pktmbuf_set_data_len, Nat.mod_eq_of_lt h']
  · intro h
    have h' : len₂ < 4294967296 := by simpa using h
    simp [rust_pktmbuf_set_pkt_len, Nat.mod_eq_of_lt h']

/-- C7 witness: a length of 60000, far beyond the 2048-byte capacity,
is stored verbatim. -/
theorem c7_setters_unchecked_witness :
    60000 < 2 ^ 16 ∧
    (rust_pktmbuf_set_data_len ⟨2048, 128, 0, 0⟩ 60000).data_len
      = 60000 :=
  ⟨by decide,
   (c7_setters_unchecked ⟨2048, 128, 0, 0⟩ 60000 0).1 (by decide)⟩

/-- C8: `rx_burst` returns at most `max` buffers, and `tx_burst` accepts
a count `n` with `n ≤ len(bufs)`, the buffers at positions `≥ n`
remaining with the caller. -/
theorem c8_burst_bounds (q : List Mbuf) (max ring : Nat)
    (bufs : List Mbuf) :
    ((rust_eth_rx_burst q max).1).length ≤ max ∧
    (rust_eth_tx_burst ring bufs).1 ≤ bufs.length ∧
    (rust_eth_tx_burst ring bufs).2
      = bufs.drop ((rust_eth_tx_burst ring bufs).1) := by
  refine ⟨?_, ?_, rfl⟩
  · simp [rust_eth_rx_burst]
  · simp [rust_eth_tx_burst]

/-- C9: removing all of the valid data with `adjust(b, data_len(b))` and
then calling `reset` produces exactly the state that `reset` alone
produces: empty lengths and headroom back at the pool default `h`,
regardless of where `adjust` left the data offset. -/
theorem c9_adjust_reset (h : Nat) (m : Mbuf) :
    rust_pktmbuf_reset h (rust_pktmbuf_adj m m.data_len).1
      = rust_pktmbuf_reset h m ∧
    (rust_pktmbuf_reset h m).data_len = 0 ∧
    (rust_pktmbuf_reset h m).pkt_len = 0 ∧
    rust_pktmbuf_headroom (rust_pktmbuf_reset h m) = h := by
  rw [adj_of_le m m.data_len le_rfl]
  exact ⟨rfl, rfl, rfl, rfl⟩

/-- C10: `set_data_len` writes only `data_len` and `set_pkt_len` writes
only `pkt_len`; consequently, after `set_data_len` alone the chain
invariant `pkt_len = Σ data_len` is broken whenever the new value
differs from the recorded `pkt_len`, and is restored once the caller
also issues the matching `set_pkt_len`. -/
theorem c10_setter_frame (m : Mbuf) (len₁ len₂ : Nat) :
    ((rust_pktmbuf_set_data_len m len₁).pkt_len = m.pkt_len ∧
     (rust_pktmbuf_set_data_len m len₁).data_off = m.data_off ∧
     (rust_pktmbuf_set_data_len m len₁).buf_len = m.buf_len) ∧
    ((rust_pktmbuf_set_pkt_len m len₂).data_len = m.data_len ∧
     (rust_pktmbuf_set_pkt_len m len₂).data_off = m.data_off ∧
     (rust_pktmbuf_set_pkt_len m len₂).buf_len = m.buf_len) ∧
    (m.pkt_len = chainDataSum [m] → len₁ % 2 ^ 16 ≠ m.pkt_len →
      (rust_pktmbuf_set_data_len m len₁).pkt_len
        ≠ chainDataSum [rust_pktmbuf_set_data_len m len₁]) ∧
    (len₁ < 2 ^ 16 →
      (rust_pktmbuf_set_pkt_len
          (rust_pktmbuf_set_data_len m len₁) len₁).pkt_len
        = chainDataSum
            [rust_pktmbuf_set_pkt_len
              (rust_pktmbuf_set_data_len m len₁) len₁]) := by
  refine ⟨⟨rfl, rfl, rfl⟩, ⟨rfl, rfl, rfl⟩, ?_, ?_⟩
  · intro _ hne
    simp [rust_pktmbuf_set_data_len, chainDataSum]
    omega
  · intro hlt
    simp [rust_pktmbuf_set_data_len, rust_pktmbuf_set_pkt_len,
      chainDataSum]
    omega

/-- C10 witness: on a fresh buffer, `set_data_len 100` alone breaks
`pkt_len = Σ data_len`, and a following `set_pkt_len 100` restores
it. -/
theorem c10_setter_frame_witness :
    ((⟨2048, 128, 0, 0⟩ : Mbuf).pkt_len
       = chainDataSum [⟨2048, 128, 0, 0⟩] ∧
     (100 : Nat) % 2 ^ 16 ≠ (⟨2048, 128, 0, 0⟩ : Mbuf).pkt_len ∧
     (rust_pktmbuf_set_data_len ⟨2048, 128, 0, 0⟩ 100).pkt_len
       ≠ chainDataSum [rust_pktmbuf_set_data_len ⟨2048, 128, 0, 0⟩ 100]) ∧
    (rust_pktmbuf_set_pkt_len
        (rust_pktmbuf_set_data_len ⟨2048, 128, 0, 0⟩ 100) 100).pkt_len
      = chainDataSum
          [rust_pktmbuf_set_pkt_len
            (rust_pktmbuf_set_data_len ⟨2048, 128, 0, 0⟩ 100) 100] := by
  refine ⟨⟨by decide, by decide, ?_⟩, ?_⟩
  · exact (c10_setter_frame ⟨2048, 128, 0, 0⟩ 100 0).2.2.1 (by decide)
      (by decide)
  · exact (c10_setter_frame ⟨2048, 128, 0, 0⟩ 100 0).2.2.2 (by decide)

/-- C1 counterexample: the unchecked setter breaks the equation.  A
buffer freshly allocated from a pool of capacity 2048 with default
headroom 128, after `set_data_len(b, 3000)` — an operation the claim
includes — reports `headroom + data_len + tailroom = 128 + 3000 + 0`,
which is not the capacity 2048. -/
theorem c1_counterexample :
    rust_pktmbuf_alloc ⟨2048, 128, 8⟩ = .ok ⟨2048, 128, 0, 0⟩ ∧
    rust_pktmbuf_headroom (rust_pktmbuf_set_data_len ⟨2048, 128, 0, 0⟩ 3000)
      + (rust_pktmbuf_set_data_len ⟨2048, 128, 0, 0⟩ 3000).data_len
      + rust_pktmbuf_tailroom
          (rust_pktmbuf_set_data_len ⟨2048, 128, 0, 0⟩ 3000)
      ≠ 2048 :=
  ⟨rfl, by decide⟩

/-- C1 (amended): `headroom + data_len + tailroom = capacity` holds for
every well-formed segment; allocation (with default headroom within
capacity) establishes well-formedness, and `append`, `prepend`,
`adjust`, `trim`, `reset` (with pool default within capacity) and
`set_pkt_len` preserve it unconditionally, while `set_data_len`
preserves it exactly under the caller obligation the spec imposes:
the new length must fit the remaining room. -/
theorem c1_room_invariant :
    (∀ m : Mbuf, m.WF →
      rust_pktmbuf_headroom m + m.data_len + rust_pktmbuf_tailroom m
        = m.buf_len) ∧
    (∀ p : Mempool, p.default_headroom ≤ p.data_room →
      ∀ b, rust_pktmbuf_alloc p = .ok b → b.WF) ∧
    (∀ (m : Mbuf) (len : Nat), m.WF →
      ((rust_pktmbuf_append m len).1).WF) ∧
    (∀ (m : Mbuf) (len : Nat), m.WF →
      ((rust_pktmbuf_prepend m len).1).WF) ∧
    (∀ (m : Mbuf) (len : Nat), m.WF → ((rust_pktmbuf_adj m len).1).WF) ∧
    (∀ (m : Mbuf) (len : Nat), m.WF → ((rust_pktmbuf_trim m len).1).WF) ∧
    (∀ (h : Nat) (m : Mbuf), h ≤ m.buf_len →
      (rust_pktmbuf_reset h m).WF) ∧
    (∀ (m : Mbuf) (len : Nat), m.WF →
      (rust_pktmbuf_set_pkt_len m len).WF) ∧
    (∀ (m : Mbuf) (len : Nat), m.data_off + len % 2 ^ 16 ≤ m.buf_len →
      (rust_pktmbuf_set_data_len m len).WF) := by
  refine ⟨?_, ?_, ?_, ?_, ?_, ?_, ?_, ?_, ?_⟩
  · intro m h
    unfold Mbuf.WF at h
    unfold rust_pktmbuf_headroom rust_pktmbuf_tailroom
    omega
  · intro p hp b hok
    unfold rust_pktmbuf_alloc at hok
    split at hok
    · exact absurd hok (by simp)
    · cases hok
      unfold Mbuf.WF
      simpa using hp
  · intro m len h
    unfold Mbuf.WF at h ⊢
    unfold rust_pktmbuf_append rust_pktmbuf_tailroom
    split <;> simp <;> omega
  · intro m len h
    unfold Mbuf.WF at h ⊢
    unfold rust_pktmbuf_prepend rust_pktmbuf_headroom
    split <;> simp <;> omega
  · intro m len h
    unfold Mbuf.WF at h ⊢
    unfold rust_pktmbuf_adj
    split <;> simp <;> omega
  · intro m len h
    unfold Mbuf.WF at h ⊢
    unfold rust_pktmbuf_trim
    split <;> simp <;> omega
  · intro h m hh
    unfold Mbuf.WF rust_pktmbuf_reset
    simpa using hh
  · intro m len h
    unfold Mbuf.WF at h ⊢
    unfold rust_pktmbuf_set_pkt_len
    simpa using h
  · intro m len h
    unfold Mbuf.WF
    unfold rust_pktmbuf_set_data_len
    simpa using h

/-- C1 witness: the equation evaluated on a concrete well-formed
buffer. -/
theorem c1_room_invariant_witness :
    Mbuf.WF ⟨2048, 128, 400, 400⟩ ∧
    rust_pktmbuf_headroom ⟨2048, 128, 400, 400⟩
      + (⟨2048, 128, 400, 400⟩ : Mbuf).data_len
      + rust_pktmbuf_tailroom ⟨2048, 128, 400, 400⟩
      = (⟨2048, 128, 400, 400⟩ : Mbuf).buf_len :=
  ⟨by decide, c1_room_invariant.1 ⟨2048, 128, 400, 400⟩ (by decide)⟩
